import Mathlib

/-!
Verification of the translation core of a protocol-translation proxy
(`proxy.py`): two pure functions converting between an Anthropic-style
("Format A") chat request/response shape and an OpenAI-style ("Format B")
shape.

Modelling choices:
* JSON documents are the inductive type `Json` below.  Python dictionaries
  are association lists in insertion order (the source only ever builds
  dictionaries with distinct keys, and `dict.get` is first-match lookup).
* JSON numbers are modelled as integers; none of the verified behaviour
  depends on fractional numbers.
* `uuid.uuid4()`-generated identifiers are modelled by an explicit
  generator parameter `g : Nat → String`: `g k` is the k-th identifier the
  invocation draws from OS randomness.  A call of the source evaluates the
  generator eagerly (Python evaluates the `dict.get` default argument
  before the lookup), which the embedding mirrors by advancing the counter
  exactly where the source evaluates an f-string containing `uuid.uuid4()`.
* Dynamic-typing errors (`AttributeError` / `TypeError` raised on
  malformed input, e.g. calling `.get` on a non-dict) are modelled by the
  converters returning `none`.
-/

inductive Json where
  | null
  | bool (b : Bool)
  | num (n : Int)
  | str (s : String)
  | arr (elems : List Json)
  | obj (fields : List (String × Json))
deriving Repr

mutual

def Json.decEq : (a b : Json) → Decidable (a = b)
  | .null, .null => isTrue rfl
  | .bool a, .bool b =>
    if h : a = b then isTrue (by rw [h]) else isFalse (fun e => h (Json.bool.inj e))
  | .num a, .num b =>
    if h : a = b then isTrue (by rw [h]) else isFalse (fun e => h (Json.num.inj e))
  | .str a, .str b =>
    if h : a = b then isTrue (by rw [h]) else isFalse (fun e => h (Json.str.inj e))
  | .arr xs, .arr ys =>
    match Json.decEqList xs ys with
    | isTrue h => isTrue (by rw [h])
    | isFalse h => isFalse (fun e => h (Json.arr.inj e))
  | .obj xs, .obj ys =>
    match Json.decEqObj xs ys with
    | isTrue h => isTrue (by rw [h])
    | isFalse h => isFalse (fun e => h (Json.obj.inj e))
  | .null, .bool _ | .null, .num _ | .null, .str _ | .null, .arr _ | .null, .obj _
  | .bool _, .null | .bool _, .num _ | .bool _, .str _ | .bool _, .arr _ | .bool _, .obj _
  | .num _, .null | .num _, .bool _ | .num _, .str _ | .num _, .arr _ | .num _, .obj _
  | .str _, .null | .str _, .bool _ | .str _, .num _ | .str _, .arr _ | .str _, .obj _
  | .arr _, .null | .arr _, .bool _ | .arr _, .num _ | .arr _, .str _ | .arr _, .obj _
  | .obj _, .null | .obj _, .bool _ | .obj _, .num _ | .obj _, .str _ | .obj _, .arr _ =>
    isFalse (fun e => Json.noConfusion e)

def Json.decEqList : (xs ys : List Json) → Decidable (xs = ys)
  | [], [] => isTrue rfl
  | [], _ :: _ => isFalse (fun e => List.noConfusion e)
  | _ :: _, [] => isFalse (fun e => List.noConfusion e)
  | x :: xs, y :: ys =>
    match Json.decEq x y with
    | isFalse h => isFalse (fun e => h (by injection e))
    | isTrue h1 =>
      match Json.decEqList xs ys with
      | isTrue h2 => isTrue (by rw [h1, h2])
      | isFalse h2 => isFalse (fun e => h2 (by injection e))

def Json.decEqObj : (xs ys : List (String × Json)) → Decidable (xs = ys)
  | [], [] => isTrue rfl
  | [], _ :: _ => isFalse (fun e => List.noConfusion e)
  | _ :: _, [] => isFalse (fun e => List.noConfusion e)
  | (k1, v1) :: xs, (k2, v2) :: ys =>
    if hk : k1 = k2 then
      match Json.decEq v1 v2 with
      | isFalse hv =>
        isFalse (fun e => by
          injection e with e1 e2
          exact hv (congrArg Prod.snd e1))
      | isTrue hv =>
        match Json.decEqObj xs ys with
        | isTrue ht => isTrue (by rw [hk, hv, ht])
        | isFalse ht => isFalse (fun e => by injection e with e1 e2; exact ht e2)
    else
      isFalse (fun e => by injection e with e1 e2; exact hk (congrArg Prod.fst e1))

end

instance : DecidableEq Json := Json.decEq

/-- First-match association-list lookup: Python `dict` access on the
dictionaries the source builds (all with distinct keys). -/
def pyLookup : List (String × Json) → String → Option Json
  | [], _ => none
  | (k, v) :: rest, key => if k = key then some v else pyLookup rest key

/-- Python `d.get(key, default)` on a value already known to be a dict. -/
def dictGetD (kvs : List (String × Json)) (k : String) (d : Json) : Json :=
  (pyLookup kvs k).getD d

/-- Python `item.get(key, default)` where `item` is a value that has been
checked (`isinstance(item, dict)`) to be a dict; on a non-dict the source
never reaches this call, so the non-dict case is arbitrary. -/
def pyGetD (o : Json) (k : String) (d : Json) : Json :=
  match o with
  | .obj kvs => dictGetD kvs k d
  | _ => d

/-- Lookup of a key of a JSON value when it is an object. -/
def objGet (o : Json) (k : String) : Option Json :=
  match o with
  | .obj kvs => pyLookup kvs k
  | _ => none

/-- Python truthiness of a JSON value. -/
def truthy : Json → Bool
  | .null => false
  | .bool b => b
  | .num n => n != 0
  | .str s => s != ""
  | .arr xs => !xs.isEmpty
  | .obj kvs => !kvs.isEmpty

/-- `isinstance(item, dict) and item.get("type") == t`. -/
def isType (t : String) (item : Json) : Bool :=
  match item with
  | .obj kvs =>
    match dictGetD kvs "type" .null with
    | .str s => s = t
    | _ => false
  | _ => false

/-- `[item.get("text", "") for item in content if isinstance(item, dict) and item.get("type") == "text"]` -/
def textParts (items : List Json) : List Json :=
  (items.filter (isType "text")).map (fun i => pyGetD i "text" (.str ""))

/-- `"\n".join(parts)`: `none` models the `TypeError` Python raises when a
part is not a string. -/
def joinTexts : List Json → Option String
  | [] => some ""
  | [.str s] => some s
  | .str s :: rest => (joinTexts rest).map (fun r => s ++ "\n" ++ r)
  | _ => none


/-! ### `json.dumps`

Serialization with the default separators (`", "` between items, `": "`
after keys).  Escaping covers the characters occurring in this
development; `ensure_ascii` escaping of non-ASCII characters is not
modelled. -/

def escChar (c : Char) : String :=
  match c with
  | '\\' => "\\\\"
  | '"' => "\\\""
  | '\n' => "\\n"
  | '\t' => "\\t"
  | '\r' => "\\r"
  | c => String.singleton c

def escStr (s : String) : String :=
  String.join (s.toList.map escChar)

mutual

def dumps : Json → String
  | .null => "null"
  | .bool true => "true"
  | .bool false => "false"
  | .num n => toString n
  | .str s => "\"" ++ escStr s ++ "\""
  | .arr xs => "[" ++ dumpsList xs ++ "]"
  | .obj kvs => "\x7b" ++ dumpsObj kvs ++ "\x7d"

def dumpsList : List Json → String
  | [] => ""
  | [x] => dumps x
  | x :: xs => dumps x ++ ", " ++ dumpsList xs

def dumpsObj : List (String × Json) → String
  | [] => ""
  | [(k, v)] => "\"" ++ escStr k ++ "\": " ++ dumps v
  | (k, v) :: rest => "\"" ++ escStr k ++ "\": " ++ dumps v ++ ", " ++ dumpsObj rest

end


/-! ### `json.loads`

A recursive-descent parser for the JSON subset this development needs:
`null`, booleans, integer numbers, strings with the single-character
escapes, arrays and objects.  Fractional/exponent number forms and
`\uXXXX` escapes are not modelled (they make the parse fail rather than
produce a value). -/

def skipWs : List Char → List Char
  | c :: rest => if c = ' ' ∨ c = '\n' ∨ c = '\t' ∨ c = '\r' then skipWs rest else c :: rest
  | [] => []

def parseStringBody : List Char → Option (String × List Char)
  | [] => none
  | '"' :: rest => some ("", rest)
  | '\\' :: c :: rest => do
    let esc ←
      match c with
      | '"' => some "\""
      | '\\' => some "\\"
      | '/' => some "/"
      | 'n' => some "\n"
      | 't' => some "\t"
      | 'r' => some "\r"
      | 'b' => some "\x08"
      | 'f' => some "\x0c"
      | _ => none
    let (s, rem) ← parseStringBody rest
    some (esc ++ s, rem)
  | c :: rest => do
    let (s, rem) ← parseStringBody rest
    some (String.singleton c ++ s, rem)

def takeDigits : List Char → List Char × List Char
  | c :: rest =>
    if c.isDigit then
      let (ds, rem) := takeDigits rest
      (c :: ds, rem)
    else ([], c :: rest)
  | [] => ([], [])

def digitsVal (ds : List Char) : Nat :=
  ds.foldl (fun acc c => acc * 10 + (c.toNat - 48)) 0

def parseNumber (cs : List Char) : Option (Int × List Char) :=
  match cs with
  | '-' :: rest =>
    match takeDigits rest with
    | ([], _) => none
    | ('0' :: _ :: _, _) => none
    | (ds, rem) => some (-(digitsVal ds : Int), rem)
  | _ =>
    match takeDigits cs with
    | ([], _) => none
    | ('0' :: _ :: _, _) => none
    | (ds, rem) => some ((digitsVal ds : Int), rem)

mutual

def parseValue : Nat → List Char → Option (Json × List Char)
  | 0, _ => none
  | fuel + 1, cs =>
    match skipWs cs with
    | 'n' :: 'u' :: 'l' :: 'l' :: rest => some (.null, rest)
    | 't' :: 'r' :: 'u' :: 'e' :: rest => some (.bool true, rest)
    | 'f' :: 'a' :: 'l' :: 's' :: 'e' :: rest => some (.bool false, rest)
    | '"' :: rest => (parseStringBody rest).map (fun p => (.str p.1, p.2))
    | '[' :: rest =>
      (match skipWs rest with
       | ']' :: r2 => some (.arr [], r2)
       | r2 => do
         let (xs, r3) ← parseElems fuel r2
         some (.arr xs, r3))
    | '\x7b' :: rest =>
      (match skipWs rest with
       | '\x7d' :: r2 => some (.obj [], r2)
       | r2 => do
         let (kvs, r3) ← parseMembers fuel r2
         some (.obj kvs, r3))
    | cs2 => (parseNumber cs2).map (fun p => (.num p.1, p.2))

def parseElems : Nat → List Char → Option (List Json × List Char)
  | 0, _ => none
  | fuel + 1, cs => do
    let (v, r) ← parseValue fuel cs
    match skipWs r with
    | ',' :: r2 => do
      let (vs, r3) ← parseElems fuel r2
      some (v :: vs, r3)
    | ']' :: r2 => some ([v], r2)
    | _ => none

def parseMembers : Nat → List Char → Option (List (String × Json) × List Char)
  | 0, _ => none
  | fuel + 1, cs =>
    match skipWs cs with
    | '"' :: rest => do
      let (k, r) ← parseStringBody rest
      match skipWs r with
      | ':' :: r2 => do
        let (v, r3) ← parseValue fuel r2
        (match skipWs r3 with
         | ',' :: r4 => do
           let (kvs, r5) ← parseMembers fuel r4
           some ((k, v) :: kvs, r5)
         | '\x7d' :: r4 => some ([(k, v)], r4)
         | _ => none)
      | _ => none
    | _ => none

end

/-- Model of `json.loads` (on the JSON subset above): `none` is a
`json.JSONDecodeError`. -/
def json_loads (s : String) : Option Json :=
  match parseValue (s.length + 1) s.toList with
  | some (v, rest) =>
    match skipWs rest with
    | [] => some v
    | _ => none
  | none => none


/-! ### Request translator: `convert_anthropic_to_openai_request` -/

/-- `json.dumps(tool_input) if not isinstance(tool_input, str) else tool_input`
(proxy.py line 150). -/
def argString (tool_input : Json) : String :=
  match tool_input with
  | .str s => s
  | v => dumps v

/-- The `for tool_use in tool_uses` loop of proxy.py lines 141-152: builds
the `tool_calls` list of an assistant message.  The counter is advanced at
each tool use with a truthy name, where the source evaluates the
`uuid.uuid4()` f-string as the eager default of `tool_use.get("id", ...)`;
the generated identifier lands in the output only when `"id"` is absent. -/
def buildToolCalls (g : Nat → String) : Nat → List Json → List Json × Nat
  | c, [] => ([], c)
  | c, tu :: rest =>
    let tool_name := pyGetD tu "name" (.str "")
    let tool_input := pyGetD tu "input" (.obj [])
    if truthy tool_name then
      let idv := pyGetD tu "id" (.str (g c))
      let entry := Json.obj
        [("id", idv), ("type", .str "function"),
         ("function", .obj [("name", tool_name), ("arguments", .str (argString tool_input))])]
      let (restCalls, c') := buildToolCalls g (c + 1) rest
      (entry :: restCalls, c')
    else
      buildToolCalls g c rest

/-- `role == "system"` branch (proxy.py lines 89-97); `none` models a
`TypeError` from `"\n".join` on non-string text parts. -/
def convertSystemMsg (content : Json) : Option (List Json) :=
  match content with
  | .str s => some [.obj [("role", .str "system"), ("content", .str s)]]
  | .arr items =>
    let tps := textParts items
    if tps.isEmpty then some []
    else
      match joinTexts tps with
      | some joined => some [.obj [("role", .str "system"), ("content", .str joined)]]
      | none => none
  | _ => some []

/-- `role == "user"` branch (proxy.py lines 98-122). -/
def convertUserMsg (content : Json) : Option (List Json) :=
  match content with
  | .str s => some [.obj [("role", .str "user"), ("content", .str s)]]
  | .arr items =>
    let trs := items.filter (isType "tool_result")
    let tps := textParts items
    let toolMsgs := trs.map (fun tr =>
      let tc0 := pyGetD tr "content" (.str "")
      let tcStr : String :=
        match tc0 with
        | .str s => s
        | v => if truthy v then dumps v else ""
      Json.obj [("role", .str "tool"), ("content", .str tcStr),
                ("tool_call_id", pyGetD tr "tool_use_id" (.str ""))])
    if tps.isEmpty then some toolMsgs
    else
      match joinTexts tps with
      | some joined =>
        some (toolMsgs ++ [.obj [("role", .str "user"), ("content", .str joined)]])
      | none => none
  | .null => some [.obj [("role", .str "user"), ("content", .str "")]]
  | _ => some []

/-- `role == "assistant"` branch (proxy.py lines 123-159). -/
def convertAssistantMsg (g : Nat → String) (c : Nat) (content : Json) :
    Option (List Json × Nat) :=
  match content with
  | .str s => some ([.obj [("role", .str "assistant"), ("content", .str s)]], c)
  | .arr items =>
    let tps := textParts items
    let tus := items.filter (isType "tool_use")
    match (if tps.isEmpty then some none else (joinTexts tps).map some) with
    | none => none
    | some textField =>
      let (tcs, c') := buildToolCalls g c tus
      let base : List (String × Json) :=
        match textField with
        | some joined => [("role", .str "assistant"), ("content", .str joined)]
        | none =>
          if tus.isEmpty then [("role", .str "assistant"), ("content", .str "")]
          else [("role", .str "assistant")]
      let msgObj :=
        if tcs.isEmpty then Json.obj base
        else Json.obj (base ++ [("tool_calls", Json.arr tcs)])
      some ([msgObj], c')
  | .null => some ([.obj [("role", .str "assistant"), ("content", .str "")]], c)
  | _ => some ([], c)

/-- One iteration of the `for msg in anthropic_messages` loop
(proxy.py lines 85-159), dispatching on `msg.get("role")`; `none` models
the `AttributeError` from `msg.get` on a non-dict element. -/
def convertMessage (g : Nat → String) (c : Nat) (msg : Json) :
    Option (List Json × Nat) :=
  match msg with
  | .obj kvs =>
    let role := dictGetD kvs "role" .null
    let content := dictGetD kvs "content" .null
    if role = .str "system" then (convertSystemMsg content).map (fun ms => (ms, c))
    else if role = .str "user" then (convertUserMsg content).map (fun ms => (ms, c))
    else if role = .str "assistant" then convertAssistantMsg g c content
    else some ([], c)
  | _ => none

/-- The whole message loop, threading the generated-identifier counter and
concatenating the emitted Format B messages. -/
def convertMessages (g : Nat → String) : Nat → List Json → Option (List Json × Nat)
  | c, [] => some ([], c)
  | c, m :: rest => do
    let (ms, c') ← convertMessage g c m
    let (rest', c'') ← convertMessages g c' rest
    some (ms ++ rest', c'')

/-- The `for tool in anthropic_tools` loop (proxy.py lines 167-176);
`none` models the `AttributeError` from `tool.get` on a non-dict entry. -/
def convertTools : List Json → Option (List Json)
  | [] => some []
  | t :: rest =>
    match t with
    | .obj kvs => do
      let ot := Json.obj
        [("type", .str "function"),
         ("function", .obj
           [("name", dictGetD kvs "name" (.str "")),
            ("description", dictGetD kvs "description" (.str "")),
            ("parameters", dictGetD kvs "input_schema" (.obj []))])]
      let rest' ← convertTools rest
      some (ot :: rest')
    | _ => none

/-- The four directly-copied fields of the output request
(proxy.py lines 70-75), in dict insertion order. -/
def baseFields (kvs : List (String × Json)) : List (String × Json) :=
  [("model", dictGetD kvs "model" (.str "gpt-4")),
   ("max_tokens", dictGetD kvs "max_tokens" (.num 1024)),
   ("temperature", dictGetD kvs "temperature" .null),
   ("stream", dictGetD kvs "stream" (.bool false))]

/-- `convert_anthropic_to_openai_request` (proxy.py lines 28-179).
`none` models an uncaught `AttributeError`/`TypeError`: `.get` on a
non-dict request, iterating a truthy non-list `messages`/`tools` (each
element of a truthy non-list, e.g. the characters of a string or the keys
of a dict, is a non-dict whose `.get` raises; a number or boolean is not
iterable at all), a non-dict message element, a non-dict tool entry, or
`"\n".join` over a non-string text part. -/
def convert_anthropic_to_openai_request (g : Nat → String) (req : Json) : Option Json :=
  match req with
  | .obj kvs =>
    let msgsJson := dictGetD kvs "messages" (.arr [])
    if truthy msgsJson then
      match msgsJson with
      | .arr ms => do
        let (outMsgs, _) ← convertMessages g 0 ms
        let withMsgs := baseFields kvs ++ [("messages", Json.arr outMsgs)]
        let toolsJson := dictGetD kvs "tools" (.arr [])
        if truthy toolsJson then
          match toolsJson with
          | .arr ts => do
            let otools ← convertTools ts
            some (.obj (withMsgs ++ [("tools", Json.arr otools)]))
          | _ => none
        else some (.obj withMsgs)
      | _ => none
    else
      some (.obj (baseFields kvs))
  | _ => none

/-! ### Response translator: `convert_openai_to_anthropic_response` -/

/-- Argument parsing of one tool call (proxy.py lines 256-266):
`arguments` already a dict is used directly; a string is `json.loads`-ed,
with `\x7b"text": str(arguments_str)\x7d` as the `JSONDecodeError`
fallback (in the source, only the string case can raise, so `str(...)` is
the string itself); any other type yields the empty object. -/
def parseArguments (arguments_str : Json) : Json :=
  match arguments_str with
  | .obj akvs => .obj akvs
  | .str s =>
    match json_loads s with
    | some v => v
    | none => .obj [("text", .str s)]
  | _ => .obj []

/-- The `for tool_call in tool_calls` loop (proxy.py lines 243-273).
Non-dict entries are skipped before the identifier default is evaluated;
every dict entry advances the counter (the `uuid.uuid4()` f-string is the
eagerly evaluated default of `tool_call.get("id", ...)`), and the
generated identifier appears in the output only when `"id"` is absent. -/
def buildRespToolUses (g : Nat → String) : Nat → List Json → List Json × Nat
  | c, [] => ([], c)
  | c, tc :: rest =>
    match tc with
    | .obj kvs =>
      let tool_id := dictGetD kvs "id" (.str (g c))
      (match dictGetD kvs "function" (.obj []) with
       | .obj fkvs =>
         let tool_name := dictGetD fkvs "name" (.str "")
         if truthy tool_name then
           let parsed := parseArguments (dictGetD fkvs "arguments" (.str "\x7b\x7d"))
           let blk := Json.obj
             [("type", .str "tool_use"), ("id", tool_id),
              ("name", tool_name), ("input", parsed)]
           let (bs, c') := buildRespToolUses g (c + 1) rest
           (blk :: bs, c')
         else buildRespToolUses g (c + 1) rest
       | _ => buildRespToolUses g (c + 1) rest)
    | _ => buildRespToolUses g c rest

/-- Text blocks from `message.content` (proxy.py lines 232-234). -/
def respTextBlocks (text_content : Json) : List Json :=
  if truthy text_content then [.obj [("type", .str "text"), ("text", text_content)]]
  else []

/-- `message.get("tool_calls")` normalisation (proxy.py lines 237-241):
`null`, absent, and non-list values all become the empty list. -/
def toolCallEntries (mkvs : List (String × Json)) : List Json :=
  match dictGetD mkvs "tool_calls" .null with
  | .arr xs => xs
  | _ => []

/-- `content if content else [\x7b"type": "text", "text": ""\x7d]`
(proxy.py line 291). -/
def assembleContent (blocks : List Json) : Json :=
  if blocks.isEmpty then .arr [.obj [("type", .str "text"), ("text", .str "")]]
  else .arr blocks

/-- `stop_reason = "tool_use" if finish_reason == "tool_calls" else finish_reason`
(proxy.py line 277). -/
def mapStopReason (finish_reason : Json) : Json :=
  match finish_reason with
  | .str "tool_calls" => .str "tool_use"
  | fr => fr

/-- `convert_openai_to_anthropic_response` (proxy.py lines 182-298).
`none` models an uncaught `AttributeError`/`TypeError`/`KeyError`:
`.get` on a non-dict response, indexing `[0]` into a truthy non-list
`choices` (a string yields a character whose `.get` then raises), a
non-dict first choice, a present non-dict `message`, or a present
non-dict `usage`. -/
def convert_openai_to_anthropic_response (g : Nat → String) (resp : Json) : Option Json :=
  match resp with
  | .obj kvs =>
    if truthy (dictGetD kvs "choices" .null) then
      match dictGetD kvs "choices" .null with
      | .arr (choice :: _) =>
        match choice with
        | .obj ckvs =>
          (match dictGetD ckvs "message" (.obj []) with
           | .obj mkvs =>
             let text_content := dictGetD mkvs "content" .null
             let (tuBlocks, c') := buildRespToolUses g 0 (toolCallEntries mkvs)
             let content := respTextBlocks text_content ++ tuBlocks
             (match dictGetD kvs "usage" (.obj []) with
              | .obj ukvs =>
                some (.obj
                  [("id", dictGetD kvs "id" (.str (g c'))),
                   ("type", .str "message"),
                   ("role", .str "assistant"),
                   ("content", assembleContent content),
                   ("model", dictGetD kvs "model" (.str "")),
                   ("stop_reason", mapStopReason (dictGetD ckvs "finish_reason" (.str ""))),
                   ("stop_sequence", .null),
                   ("usage", .obj
                     [("input_tokens", dictGetD ukvs "prompt_tokens" (.num 0)),
                      ("output_tokens", dictGetD ukvs "completion_tokens" (.num 0))])])
              | _ => none)
           | _ => none)
        | _ => none
      | _ => none
    else some resp
  | _ => none

/-! ## Claims -/

/-! ### C2: passthrough when `choices` is absent or empty -/

/-- C2: for every Format B response document whose `choices` field is
absent or empty, `convert_openai_to_anthropic_response` returns the input
document itself, unchanged. -/
theorem c2_passthrough_no_choices (g : Nat → String) (kvs : List (String × Json))
    (h : pyLookup kvs "choices" = none ∨ pyLookup kvs "choices" = some (.arr [])) :
    convert_openai_to_anthropic_response g (.obj kvs) = some (.obj kvs) := by
  have ht : truthy (dictGetD kvs "choices" .null) = false := by
    rcases h with h | h <;> simp [dictGetD, h, truthy, Option.getD]
  unfold convert_openai_to_anthropic_response
  simp [ht]

theorem c2_witness :
    convert_openai_to_anthropic_response (fun _ => "msg_gen")
        (.obj [("id", .str "x"), ("choices", .arr [])]) =
      some (.obj [("id", .str "x"), ("choices", .arr [])]) :=
  c2_passthrough_no_choices _ _ (Or.inr rfl)

/-! ### C3: tool-call argument parsing -/

/-- A Format B response whose single tool call carries `a` as its
`function.arguments`. -/
def respWithArgs (a : Json) : Json :=
  .obj [("id", .str "r1"),
        ("choices", .arr
          [.obj [("message", .obj [("tool_calls", .arr
            [.obj [("id", .str "c1"),
                   ("function", .obj [("name", .str "f"), ("arguments", a)])]])])]])]

/-- The expected Format A response for `respWithArgs`, parameterised by the
derived `input` of the single tool_use block. -/
def c3Expected (input : Json) : Json :=
  .obj [("id", .str "r1"), ("type", .str "message"), ("role", .str "assistant"),
        ("content", .arr [.obj [("type", .str "tool_use"), ("id", .str "c1"),
                                ("name", .str "f"), ("input", input)]]),
        ("model", .str ""), ("stop_reason", .str ""), ("stop_sequence", .null),
        ("usage", .obj [("input_tokens", .num 0), ("output_tokens", .num 0)])]

/-- The argument-derivation rule as amended: an object is used directly; a
string is JSON-parsed, with `\x7b"text": s\x7d` as the parse-failure
fallback; arguments of any other type yield the empty object (where the
original claim said the text fallback also applied to them). -/
def specArgumentRule (a : Json) : Json :=
  match a with
  | .obj kvs => .obj kvs
  | .str s => (json_loads s).getD (.obj [("text", .str s)])
  | _ => .obj []

/-- C3 counterexample: for `function.arguments = 42` (neither object nor
string) the code derives `input = \x7b\x7d`, not
`\x7b"text": "42"\x7d` as the claim states. -/
theorem c3_counterexample :
    convert_openai_to_anthropic_response (fun _ => "gen") (respWithArgs (.num 42)) =
        some (c3Expected (.obj [])) ∧
      Json.obj [] ≠ Json.obj [("text", .str "42")] :=
  ⟨rfl, by decide⟩

/-- The source's argument derivation agrees with the amended rule. -/
theorem parseArguments_eq_spec (a : Json) : parseArguments a = specArgumentRule a := by
  cases a <;> try rfl
  rename_i s
  show (match json_loads s with
        | some v => v
        | none => Json.obj [("text", .str s)]) =
    (json_loads s).getD (Json.obj [("text", .str s)])
  cases json_loads s <;> rfl

/-- C3 (amended): for every tool-call `arguments` value `a`, the tool_use
block's `input` is: `a` itself when `a` is an object; the JSON parse of
`a` when it is a string, falling back to `\x7b"text": a\x7d` on parse
failure; and the empty object for arguments of any other type. -/
theorem c3_argument_parsing (g : Nat → String) (a : Json) :
    convert_openai_to_anthropic_response g (respWithArgs a) =
      some (c3Expected (specArgumentRule a)) := by
  rw [← parseArguments_eq_spec]
  rfl

/-! ### C4: requests with absent or empty `messages` -/

/-- A Format A request with an empty message list and a tools entry. -/
def c4Request : Json :=
  .obj [("messages", .arr []),
        ("tools", .arr [.obj [("name", .str "t"), ("description", .str "d"),
                              ("input_schema", .obj [])]])]

/-- C4 counterexample: on an empty message list, the early return skips
the `messages` assignment and the whole tools mapping — the output has
neither a `messages` key (the claim says an empty message list is
present) nor a `tools` key (the claim says the tools mapping is copied). -/
theorem c4_counterexample :
    convert_anthropic_to_openai_request (fun _ => "gen") c4Request =
        some (.obj [("model", .str "gpt-4"), ("max_tokens", .num 1024),
                    ("temperature", .null), ("stream", .bool false)]) ∧
      objGet (.obj [("model", .str "gpt-4"), ("max_tokens", .num 1024),
                    ("temperature", .null), ("stream", .bool false)]) "messages" = none ∧
      objGet (.obj [("model", .str "gpt-4"), ("max_tokens", .num 1024),
                    ("temperature", .null), ("stream", .bool false)]) "tools" = none :=
  ⟨rfl, rfl, rfl⟩

/-- C4 (amended): for every Format A request whose `messages` list is
absent or empty, `convert_anthropic_to_openai_request` returns a Format B
request containing only the four copied fields `model`, `max_tokens`,
`temperature` and `stream`; the `messages` key is omitted entirely (not
set to an empty list) and the `tools` mapping is not performed even when
tools are present in the source. -/
theorem c4_no_messages_early_return (g : Nat → String) (kvs : List (String × Json))
    (h : pyLookup kvs "messages" = none ∨ pyLookup kvs "messages" = some (.arr [])) :
    convert_anthropic_to_openai_request g (.obj kvs) = some (.obj (baseFields kvs)) ∧
      objGet (.obj (baseFields kvs)) "messages" = none ∧
      objGet (.obj (baseFields kvs)) "tools" = none := by
  have ht : truthy (dictGetD kvs "messages" (.arr [])) = false := by
    rcases h with h | h <;> simp [dictGetD, h, truthy, Option.getD]
  refine ⟨?_, rfl, rfl⟩
  unfold convert_anthropic_to_openai_request
  simp [ht]

theorem c4_witness :
    convert_anthropic_to_openai_request (fun _ => "gen") (.obj [("model", .str "m")]) =
        some (.obj (baseFields [("model", .str "m")])) ∧
      objGet (.obj (baseFields [("model", .str "m")])) "messages" = none ∧
      objGet (.obj (baseFields [("model", .str "m")])) "tools" = none :=
  c4_no_messages_early_return _ _ (Or.inl rfl)

/-! ### C5: absent `temperature` -/

/-- Every successful run of the request translator produces an output
object whose fields start with the four copied base fields. -/
theorem convert_request_base_shape (g : Nat → String) (kvs : List (String × Json))
    (out : Json) (h : convert_anthropic_to_openai_request g (.obj kvs) = some out) :
    ∃ rest, out = .obj (baseFields kvs ++ rest) := by
  simp only [convert_anthropic_to_openai_request] at h
  split at h
  · split at h
    · rename_i ms hms
      cases hcm : convertMessages g 0 ms with
      | none => simp [hcm] at h
      | some p =>
        obtain ⟨outMsgs, c2⟩ := p
        simp only [hcm, Option.bind_eq_bind, Option.some_bind] at h
        split at h
        · split at h
          · rename_i ts hts
            cases hct : convertTools ts with
            | none => simp [hct] at h
            | some ots =>
              simp only [hct, Option.bind_eq_bind, Option.some_bind,
                Option.some_inj] at h
              exact ⟨_, by rw [← h, List.append_assoc]⟩
          · exact absurd h (by simp)
        · simp only [Option.some_inj] at h
          exact ⟨_, h.symm⟩
    · exact absurd h (by simp)
  · simp only [Option.some_inj] at h
    exact ⟨[], by rw [← h, List.append_nil]⟩

/-- A Format A request without a `temperature` field. -/
def c5Request : Json :=
  .obj [("messages", .arr [.obj [("role", .str "user"), ("content", .str "Hi")]])]

/-- C5 counterexample: converting a request without `temperature` yields
an output in which the `temperature` key is present with a null value —
the claim says the key is omitted entirely. -/
theorem c5_counterexample :
    convert_anthropic_to_openai_request (fun _ => "gen") c5Request =
        some (.obj [("model", .str "gpt-4"), ("max_tokens", .num 1024),
                    ("temperature", .null), ("stream", .bool false),
                    ("messages", .arr [.obj [("role", .str "user"), ("content", .str "Hi")]])]) ∧
      objGet (.obj [("model", .str "gpt-4"), ("max_tokens", .num 1024),
                    ("temperature", .null), ("stream", .bool false),
                    ("messages", .arr [.obj [("role", .str "user"), ("content", .str "Hi")]])])
          "temperature" = some .null :=
  ⟨rfl, rfl⟩

/-- C5 (amended): for every Format A request in which `temperature` (and
`model`, `max_tokens`, `stream`) are absent, any Format B request the
translator produces carries a `temperature` key explicitly set to the
null value (not omitted), while `model`, `max_tokens` and `stream` are
set to the defaults "gpt-4", 1024 and false. -/
theorem c5_temperature_null (g : Nat → String) (kvs : List (String × Json)) (out : Json)
    (hm : pyLookup kvs "model" = none) (hmx : pyLookup kvs "max_tokens" = none)
    (htp : pyLookup kvs "temperature" = none) (hst : pyLookup kvs "stream" = none)
    (h : convert_anthropic_to_openai_request g (.obj kvs) = some out) :
    (∃ rest, out = .obj (("model", .str "gpt-4") :: ("max_tokens", .num 1024) ::
        ("temperature", .null) :: ("stream", .bool false) :: rest)) ∧
      objGet out "temperature" = some .null := by
  obtain ⟨rest, hrest⟩ := convert_request_base_shape g kvs out h
  have hb : baseFields kvs =
      [("model", .str "gpt-4"), ("max_tokens", .num 1024),
       ("temperature", .null), ("stream", .bool false)] := by
    simp [baseFields, dictGetD, hm, hmx, htp, hst, Option.getD]
  rw [hb] at hrest
  exact ⟨⟨rest, hrest⟩, by rw [hrest]; rfl⟩

theorem c5_witness :
    (∃ rest, convert_anthropic_to_openai_request (fun _ => "gen") c5Request = some (.obj
        (("model", Json.str "gpt-4") :: ("max_tokens", .num 1024) ::
         ("temperature", .null) :: ("stream", .bool false) :: rest))) ∧
      pyLookup [("messages", Json.arr [.obj [("role", .str "user"), ("content", .str "Hi")]])]
        "temperature" = none := by
  have h := c5_temperature_null (fun _ => "gen")
    [("messages", Json.arr [.obj [("role", .str "user"), ("content", .str "Hi")]])]
    (.obj [("model", .str "gpt-4"), ("max_tokens", .num 1024),
           ("temperature", .null), ("stream", .bool false),
           ("messages", .arr [.obj [("role", .str "user"), ("content", .str "Hi")]])])
    rfl rfl rfl rfl rfl
  obtain ⟨⟨rest, hrest⟩, _⟩ := h
  exact ⟨⟨rest, by rw [← hrest]; rfl⟩, rfl⟩

/-! ### C10: user messages with neither tool_result nor text blocks -/

/-- C10: a user-role message whose block-sequence content has no
tool_result and no text blocks produces no Format B message at all: the
per-message translation emits the empty message list (first conjunct),
so the message is dropped from the output message list of the enclosing
loop (second conjunct). -/
theorem c10_user_message_dropped :
    (∀ (g : Nat → String) (c : Nat) (kvs : List (String × Json)) (items : List Json),
      dictGetD kvs "role" .null = .str "user" →
      dictGetD kvs "content" .null = .arr items →
      items.filter (isType "tool_result") = [] →
      items.filter (isType "text") = [] →
      convertMessage g c (.obj kvs) = some ([], c)) ∧
    (∀ (g : Nat → String) (c : Nat) (pre post : List Json)
        (kvs : List (String × Json)) (items : List Json),
      dictGetD kvs "role" .null = .str "user" →
      dictGetD kvs "content" .null = .arr items →
      items.filter (isType "tool_result") = [] →
      items.filter (isType "text") = [] →
      convertMessages g c (pre ++ .obj kvs :: post) = convertMessages g c (pre ++ post)) := by
  have h1 : ∀ (g : Nat → String) (c : Nat) (kvs : List (String × Json)) (items : List Json),
      dictGetD kvs "role" .null = .str "user" →
      dictGetD kvs "content" .null = .arr items →
      items.filter (isType "tool_result") = [] →
      items.filter (isType "text") = [] →
      convertMessage g c (.obj kvs) = some ([], c) := by
    intro g c kvs items hr hc htr htx
    simp [convertMessage, hr, hc, convertUserMsg, textParts, htr, htx]
  refine ⟨h1, ?_⟩
  intro g c pre post kvs items hr hc htr htx
  induction pre generalizing c with
  | nil =>
    simp only [List.nil_append, convertMessages, h1 g c kvs items hr hc htr htx,
      Option.bind_eq_bind, Option.some_bind]
    cases convertMessages g c post with
    | none => rfl
    | some q => rfl
  | cons m pre ih =>
    simp only [List.cons_append, convertMessages, Option.bind_eq_bind]
    cases convertMessage g c m with
    | none => rfl
    | some p => simp only [Option.some_bind, List.append_eq, ih p.2]

theorem c10_witness :
    convertMessage (fun _ => "gen") 3
        (.obj [("role", .str "user"),
               ("content", .arr [.obj [("type", .str "image"), ("data", .str "x")]])]) =
      some ([], 3) :=
  c10_user_message_dropped.1 _ 3 _ _ rfl rfl rfl rfl

/-! ### C6: assistant messages with tool_use blocks -/

/-- A Format A `tool_use` content block with id `i`, name `n`, input `a`. -/
def mkToolUseBlock (i n : String) (a : Json) : Json :=
  .obj [("type", .str "tool_use"), ("id", .str i), ("name", .str n), ("input", a)]

/-- The Format B tool-call entry the translator produces for
`mkToolUseBlock i n a`. -/
def mkToolCallEntry (i n : String) (a : Json) : Json :=
  .obj [("id", .str i), ("type", .str "function"),
        ("function", .obj [("name", .str n), ("arguments", .str (argString a))])]

theorem buildToolCalls_on_blocks (g : Nat → String) (ts : List (String × String × Json))
    (hn : ∀ t ∈ ts, t.2.1 ≠ "") (c : Nat) :
    buildToolCalls g c (ts.map (fun t => mkToolUseBlock t.1 t.2.1 t.2.2)) =
      (ts.map (fun t => mkToolCallEntry t.1 t.2.1 t.2.2), c + ts.length) := by
  induction ts generalizing c with
  | nil => rfl
  | cons t rest ih =>
    obtain ⟨i, n, a⟩ := t
    have hne : n ≠ "" := hn (i, n, a) (by simp)
    have htr : truthy (Json.str n) = true := by
      simp [truthy, bne_iff_ne, hne]
    have hrec := ih (fun t ht => hn t (List.mem_cons_of_mem _ ht)) (c + 1)
    have e1 : pyGetD (mkToolUseBlock i n a) "name" (.str "") = .str n := rfl
    have e2 : pyGetD (mkToolUseBlock i n a) "input" (.obj []) = a := rfl
    have e3 : pyGetD (mkToolUseBlock i n a) "id" (.str (g c)) = .str i := rfl
    simp only [List.map_cons, buildToolCalls, e1, e2, e3, htr, eq_self_iff_true, if_true,
      hrec, mkToolCallEntry]
    congr 1
    simp only [List.length_cons]
    omega

/-- Translation of an assistant message with only tool_use blocks. -/
theorem assistantToolOnlyMsg (g : Nat → String) (c : Nat) (kvs : List (String × Json))
    (items : List Json) (ts : List (String × String × Json))
    (hr : dictGetD kvs "role" .null = .str "assistant")
    (hc : dictGetD kvs "content" .null = .arr items)
    (htx : items.filter (isType "text") = [])
    (htu : items.filter (isType "tool_use") =
      ts.map (fun t => mkToolUseBlock t.1 t.2.1 t.2.2))
    (hts : ts ≠ [])
    (hn : ∀ t ∈ ts, t.2.1 ≠ "") :
    convertMessage g c (.obj kvs) =
      some ([.obj [("role", .str "assistant"),
                   ("tool_calls", .arr (ts.map (fun t => mkToolCallEntry t.1 t.2.1 t.2.2)))]],
            c + ts.length) := by
  have hbt := buildToolCalls_on_blocks g ts hn c
  have hmapne : ts.map (fun t => mkToolCallEntry t.1 t.2.1 t.2.2) ≠ [] := by
    simpa using hts
  simp [convertMessage, hr, hc, convertAssistantMsg, textParts, htx, htu, hbt,
    List.isEmpty_iff, hmapne, hts]

/-- C6: an assistant message whose block-sequence content has no text
blocks and whose tool_use blocks are exactly `mkToolUseBlock`s with
non-empty names translates to exactly one assistant message without a
`content` key, carrying one `tool_calls` entry
`\x7bid, type: "function", function: \x7bname, arguments\x7d\x7d` per
block with `arguments = argString input` (JSON serialization, or the
string itself when input is a string); and an assistant block sequence
with neither text blocks nor tool_use blocks yields an assistant message
whose `content` is the empty string. -/
theorem c6_assistant_tool_calls :
    (∀ (g : Nat → String) (c : Nat) (kvs : List (String × Json)) (items : List Json)
        (ts : List (String × String × Json)),
      dictGetD kvs "role" .null = .str "assistant" →
      dictGetD kvs "content" .null = .arr items →
      items.filter (isType "text") = [] →
      items.filter (isType "tool_use") = ts.map (fun t => mkToolUseBlock t.1 t.2.1 t.2.2) →
      ts ≠ [] →
      (∀ t ∈ ts, t.2.1 ≠ "") →
      convertMessage g c (.obj kvs) =
        some ([.obj [("role", .str "assistant"),
                     ("tool_calls", .arr (ts.map (fun t => mkToolCallEntry t.1 t.2.1 t.2.2)))]],
              c + ts.length)) ∧
    (∀ (g : Nat → String) (c : Nat) (kvs : List (String × Json)) (items : List Json),
      dictGetD kvs "role" .null = .str "assistant" →
      dictGetD kvs "content" .null = .arr items →
      items.filter (isType "text") = [] →
      items.filter (isType "tool_use") = [] →
      convertMessage g c (.obj kvs) =
        some ([.obj [("role", .str "assistant"), ("content", .str "")]], c)) := by
  constructor
  · intro g c kvs items ts hr hc htx htu hts hn
    exact assistantToolOnlyMsg g c kvs items ts hr hc htx htu hts hn
  · intro g c kvs items hr hc htx htu
    simp [convertMessage, hr, hc, convertAssistantMsg, textParts, htx, htu,
      buildToolCalls]

theorem c6_witness :
    convertMessage (fun _ => "gen") 0
        (.obj [("role", .str "assistant"),
               ("content", .arr [mkToolUseBlock "call_1" "execute_sql"
                 (.obj [("sql_query", .str "SELECT 1")])])]) =
      some ([.obj [("role", .str "assistant"),
                   ("tool_calls", .arr [mkToolCallEntry "call_1" "execute_sql"
                     (.obj [("sql_query", .str "SELECT 1")])])]], 1) :=
  c6_assistant_tool_calls.1 _ 0 _ _ [("call_1", "execute_sql", .obj [("sql_query", .str "SELECT 1")])]
    rfl rfl rfl rfl (by decide) (by decide)

/-! ### C7: tool-call identity round-trip -/

/-- A Format A request pairing an assistant `tool_use` block of id `X`
with a user `tool_result` block referring to `X`. -/
def c7Request (X nm : String) (inp : Json) (rc : String) : Json :=
  .obj [("messages", .arr
    [.obj [("role", .str "assistant"), ("content", .arr [mkToolUseBlock X nm inp])],
     .obj [("role", .str "user"), ("content", .arr
       [.obj [("type", .str "tool_result"), ("tool_use_id", .str X),
              ("content", .str rc)]])]])]

/-- C7: translating an assistant `tool_use` block with id `X` (non-empty
name) followed by a user `tool_result` block with `tool_use_id = X`
produces a tool-call entry with `id = X` on the assistant message and a
tool-role message with `tool_call_id = X`: the identifier `X` is
propagated unchanged in both places. -/
theorem c7_tool_id_round_trip (g : Nat → String) (X nm : String) (inp : Json) (rc : String)
    (hnm : nm ≠ "") :
    convert_anthropic_to_openai_request g (c7Request X nm inp rc) =
        some (.obj [("model", .str "gpt-4"), ("max_tokens", .num 1024),
                    ("temperature", .null), ("stream", .bool false),
                    ("messages", .arr
          [.obj [("role", .str "assistant"),
                 ("tool_calls", .arr [mkToolCallEntry X nm inp])],
           .obj [("role", .str "tool"), ("content", .str rc),
                 ("tool_call_id", .str X)]])]) ∧
      objGet (mkToolCallEntry X nm inp) "id" = some (.str X) ∧
      objGet (.obj [("role", .str "tool"), ("content", .str rc),
                    ("tool_call_id", .str X)]) "tool_call_id" = some (.str X) := by
  refine ⟨?_, rfl, rfl⟩
  have hmsg1 : convertMessage g 0
      (.obj [("role", .str "assistant"), ("content", .arr [mkToolUseBlock X nm inp])]) =
      some ([.obj [("role", .str "assistant"),
                   ("tool_calls", .arr [mkToolCallEntry X nm inp])]], 1) := by
    have := assistantToolOnlyMsg g 0
      [("role", Json.str "assistant"), ("content", .arr [mkToolUseBlock X nm inp])]
      [mkToolUseBlock X nm inp] [(X, nm, inp)] rfl rfl rfl rfl
      (by simp) (by simpa using hnm)
    simpa using this
  have hmsg2 : convertMessage g 1
      (.obj [("role", .str "user"), ("content", .arr
        [.obj [("type", .str "tool_result"), ("tool_use_id", .str X),
               ("content", .str rc)]])]) =
      some ([.obj [("role", .str "tool"), ("content", .str rc),
                   ("tool_call_id", .str X)]], 1) := rfl
  have hmm : convertMessages g 0
      [.obj [("role", .str "assistant"), ("content", .arr [mkToolUseBlock X nm inp])],
       .obj [("role", .str "user"), ("content", .arr
         [.obj [("type", .str "tool_result"), ("tool_use_id", .str X),
                ("content", .str rc)]])]] =
      some ([.obj [("role", .str "assistant"),
                   ("tool_calls", .arr [mkToolCallEntry X nm inp])],
             .obj [("role", .str "tool"), ("content", .str rc),
                   ("tool_call_id", .str X)]], 1) := by
    simp only [convertMessages, hmsg1, hmsg2, Option.bind_eq_bind, Option.some_bind]
    rfl
  rw [show convert_anthropic_to_openai_request g (c7Request X nm inp rc) =
      Option.bind (convertMessages g 0
        [.obj [("role", .str "assistant"), ("content", .arr [mkToolUseBlock X nm inp])],
         .obj [("role", .str "user"), ("content", .arr
           [.obj [("type", .str "tool_result"), ("tool_use_id", .str X),
                  ("content", .str rc)]])]])
        (fun p => some (.obj [("model", .str "gpt-4"), ("max_tokens", .num 1024),
          ("temperature", .null), ("stream", .bool false),
          ("messages", .arr p.1)])) from rfl, hmm]
  rfl

theorem c7_witness :
    convert_anthropic_to_openai_request (fun _ => "gen")
        (c7Request "call_123" "execute_sql" (.obj [("sql_query", .str "SELECT 1")]) "ok") =
        some (.obj [("model", .str "gpt-4"), ("max_tokens", .num 1024),
                    ("temperature", .null), ("stream", .bool false),
                    ("messages", .arr
          [.obj [("role", .str "assistant"),
                 ("tool_calls", .arr
                   [mkToolCallEntry "call_123" "execute_sql"
                     (.obj [("sql_query", .str "SELECT 1")])])],
           .obj [("role", .str "tool"), ("content", .str "ok"),
                 ("tool_call_id", .str "call_123")]])]) ∧
      objGet (mkToolCallEntry "call_123" "execute_sql"
          (.obj [("sql_query", .str "SELECT 1")])) "id" = some (.str "call_123") ∧
      objGet (.obj [("role", .str "tool"), ("content", .str "ok"),
                    ("tool_call_id", .str "call_123")]) "tool_call_id" =
        some (.str "call_123") :=
  c7_tool_id_round_trip (fun _ => "gen") "call_123" "execute_sql"
    (.obj [("sql_query", .str "SELECT 1")]) "ok" (by decide)

/-! ### C1: non-empty content invariant -/

/-- C1: for every Format B response whose `choices` list is non-empty
(first choice an object, `message` and `usage` objects where present),
the translated Format A response's `content` array has at least one
element; and when the first choice's message yields no text block and no
tool_use blocks, `content` is exactly the single empty-text block. -/
theorem c1_nonempty_content (g : Nat → String)
    (kvs ckvs mkvs ukvs : List (String × Json)) (rest : List Json)
    (hch : pyLookup kvs "choices" = some (.arr (.obj ckvs :: rest)))
    (hmsg : dictGetD ckvs "message" (.obj []) = .obj mkvs)
    (hus : dictGetD kvs "usage" (.obj []) = .obj ukvs) :
    ∃ out blocks,
      convert_openai_to_anthropic_response g (.obj kvs) = some out ∧
      objGet out "content" = some (.arr blocks) ∧
      blocks ≠ [] ∧
      (respTextBlocks (dictGetD mkvs "content" .null) = [] →
        (buildRespToolUses g 0 (toolCallEntries mkvs)).1 = [] →
        blocks = [.obj [("type", .str "text"), ("text", .str "")]]) := by
  have hd : dictGetD kvs "choices" .null = .arr (.obj ckvs :: rest) := by
    simp [dictGetD, hch]
  have ht : truthy (dictGetD kvs "choices" .null) = true := by rw [hd]; rfl
  rcases hbb : buildRespToolUses g 0 (toolCallEntries mkvs) with ⟨tub, c2⟩
  simp only [convert_openai_to_anthropic_response, ht, eq_self_iff_true, if_true,
    hd, hmsg, hus, hbb]
  by_cases hemp : respTextBlocks (dictGetD mkvs "content" .null) ++ tub = []
  · refine ⟨_, [.obj [("type", .str "text"), ("text", .str "")]], rfl, ?_, by simp, fun _ _ => rfl⟩
    simp [objGet, pyLookup, assembleContent, hemp]
  · refine ⟨_, respTextBlocks (dictGetD mkvs "content" .null) ++ tub, rfl, ?_, hemp, ?_⟩
    · simp [objGet, pyLookup, assembleContent, List.isEmpty_iff, hemp]
    · intro h1 h2
      have h2b : tub = [] := by simpa using h2
      exact absurd (by rw [h1, h2b]; rfl) hemp

theorem c1_witness :
    ∃ out blocks,
      convert_openai_to_anthropic_response (fun _ => "msg_gen")
          (.obj [("choices", .arr [.obj []])]) = some out ∧
      objGet out "content" = some (.arr blocks) ∧
      blocks ≠ [] ∧
      (respTextBlocks (dictGetD [] "content" .null) = [] →
        (buildRespToolUses (fun _ => "msg_gen") 0 (toolCallEntries [])).1 = [] →
        blocks = [.obj [("type", .str "text"), ("text", .str "")]]) :=
  c1_nonempty_content (fun _ => "msg_gen") [("choices", .arr [.obj []])] [] [] [] []
    rfl rfl rfl

/-! ### C9: the request translator and malformed input -/

/-- Every `text`-typed block of the item list carries a string (or
absent) `text` field, so the `"\n".join` calls cannot raise. -/
def textFieldsOk (items : List Json) : Bool :=
  (items.filter (isType "text")).all (fun i =>
    match pyGetD i "text" (.str "") with
    | .str _ => true
    | _ => false)

/-- A message element on which the per-message translation cannot raise:
an object whose list-form content has string text fields. -/
def msgSafe (msg : Json) : Bool :=
  match msg with
  | .obj kvs =>
    match dictGetD kvs "content" .null with
    | .arr items => textFieldsOk items
    | _ => true
  | _ => false

/-- A request dictionary on which the request translator cannot raise:
`messages` (when truthy) is a list of safe message objects and `tools`
(when truthy) is a list of objects. -/
def reqSafe (req : Json) : Bool :=
  match req with
  | .obj kvs =>
    (match dictGetD kvs "messages" (.arr []) with
     | .arr ms => ms.all msgSafe
     | j => !truthy j) &&
    (match dictGetD kvs "tools" (.arr []) with
     | .arr ts => ts.all (fun t => match t with | .obj _ => true | _ => false)
     | j => !truthy j)
  | _ => false

theorem joinTexts_isSome (l : List Json) (h : ∀ x ∈ l, ∃ s, x = Json.str s) :
    (joinTexts l).isSome := by
  induction l with
  | nil => rfl
  | cons x xs ih =>
    obtain ⟨s, rfl⟩ := h x (by simp)
    cases xs with
    | nil => rfl
    | cons y ys =>
      have hrec := ih (fun z hz => h z (List.mem_cons_of_mem _ hz))
      rw [show joinTexts (Json.str s :: y :: ys) =
        (joinTexts (y :: ys)).map (fun r => s ++ "\n" ++ r) from rfl]
      cases hj : joinTexts (y :: ys) with
      | none => rw [hj] at hrec; exact absurd hrec (by simp)
      | some r => rfl

theorem textParts_strings (items : List Json) (h : textFieldsOk items = true) :
    ∀ x ∈ textParts items, ∃ s, x = Json.str s := by
  intro x hx
  simp only [textParts, List.mem_map] at hx
  obtain ⟨i, hi, rfl⟩ := hx
  have hall := (List.all_eq_true.mp h) i hi
  rcases hp : pyGetD i "text" (.str "") with _ | b | n | s | a | o <;> rw [hp] at hall <;>
    first
      | exact ⟨_, rfl⟩
      | exact absurd hall (by simp)

theorem convertSystemMsg_isSome (content : Json)
    (h : ∀ items, content = .arr items → textFieldsOk items = true) :
    (convertSystemMsg content).isSome := by
  cases content <;> try rfl
  rename_i items
  have htx := h items rfl
  have hj := joinTexts_isSome (textParts items) (textParts_strings items htx)
  simp only [convertSystemMsg]
  by_cases he : (textParts items).isEmpty = true
  · simp [he]
  · cases hjj : joinTexts (textParts items) with
    | none => rw [hjj] at hj; exact absurd hj (by simp)
    | some j => simp [he, hjj]

theorem convertUserMsg_isSome (content : Json)
    (h : ∀ items, content = .arr items → textFieldsOk items = true) :
    (convertUserMsg content).isSome := by
  cases content <;> try rfl
  rename_i items
  have htx := h items rfl
  have hj := joinTexts_isSome (textParts items) (textParts_strings items htx)
  simp only [convertUserMsg]
  by_cases he : (textParts items).isEmpty = true
  · simp [he]
  · cases hjj : joinTexts (textParts items) with
    | none => rw [hjj] at hj; exact absurd hj (by simp)
    | some j => simp [he, hjj]

theorem convertAssistantMsg_isSome (g : Nat → String) (c : Nat) (content : Json)
    (h : ∀ items, content = .arr items → textFieldsOk items = true) :
    (convertAssistantMsg g c content).isSome := by
  cases content <;> try rfl
  rename_i items
  have htx := h items rfl
  have hj := joinTexts_isSome (textParts items) (textParts_strings items htx)
  simp only [convertAssistantMsg]
  by_cases he : (textParts items).isEmpty = true
  · simp [he]
  · cases hjj : joinTexts (textParts items) with
    | none => rw [hjj] at hj; exact absurd hj (by simp)
    | some j => simp [he, hjj]

theorem convertMessage_isSome (g : Nat → String) (c : Nat) (msg : Json)
    (h : msgSafe msg = true) : (convertMessage g c msg).isSome := by
  cases msg with
  | obj kvs =>
    have hcont : ∀ items, dictGetD kvs "content" .null = .arr items →
        textFieldsOk items = true := by
      intro items hi
      simp only [msgSafe, hi] at h
      exact h
    simp only [convertMessage]
    split
    · have := convertSystemMsg_isSome (dictGetD kvs "content" .null) hcont
      cases hcs : convertSystemMsg (dictGetD kvs "content" .null) with
      | none => rw [hcs] at this; exact absurd this (by simp)
      | some ms => simp [hcs]
    · split
      · have := convertUserMsg_isSome (dictGetD kvs "content" .null) hcont
        cases hcs : convertUserMsg (dictGetD kvs "content" .null) with
        | none => rw [hcs] at this; exact absurd this (by simp)
        | some ms => simp [hcs]
      · split
        · exact convertAssistantMsg_isSome g c (dictGetD kvs "content" .null) hcont
        · rfl
  | null => exact absurd h (by simp [msgSafe])
  | bool b => exact absurd h (by simp [msgSafe])
  | num n => exact absurd h (by simp [msgSafe])
  | str s => exact absurd h (by simp [msgSafe])
  | arr xs => exact absurd h (by simp [msgSafe])

theorem convertMessages_isSome (g : Nat → String) (ms : List Json)
    (h : ms.all msgSafe = true) : ∀ c, (convertMessages g c ms).isSome := by
  induction ms with
  | nil => intro c; rfl
  | cons m rest ih =>
    intro c
    simp only [List.all_cons, Bool.and_eq_true] at h
    have h1 := convertMessage_isSome g c m h.1
    cases hm : convertMessage g c m with
    | none => rw [hm] at h1; exact absurd h1 (by simp)
    | some p =>
      have h2 := ih h.2 p.2
      cases hrest : convertMessages g p.2 rest with
      | none => rw [hrest] at h2; exact absurd h2 (by simp)
      | some q => simp [convertMessages, hm, hrest]

theorem convertTools_isSome (ts : List Json)
    (h : ts.all (fun t => match t with | .obj _ => true | _ => false) = true) :
    (convertTools ts).isSome := by
  induction ts with
  | nil => rfl
  | cons t rest ih =>
    simp only [List.all_cons, Bool.and_eq_true] at h
    cases t with
    | obj tkvs =>
      have h2 := ih h.2
      cases hr : convertTools rest with
      | none => rw [hr] at h2; exact absurd h2 (by simp)
      | some ots => simp [convertTools, hr]
    | null => simp at h
    | bool b => simp at h
    | num n => simp at h
    | str s => simp at h
    | arr xs => simp at h

/-- C9 (amended): the request translator terminates normally (returns a
document) on every input dictionary whose `messages` field, when truthy,
is a list of message objects with string text fields, and whose `tools`
field, when truthy, is a list of objects; it raises (`none`) on wrong-
typed `messages`/`tools` elements, contrary to the original claim. -/
theorem c9_no_raise (g : Nat → String) (req : Json) (h : reqSafe req = true) :
    ∃ out, convert_anthropic_to_openai_request g req = some out := by
  cases req with
  | obj kvs =>
    simp only [reqSafe, Bool.and_eq_true] at h
    obtain ⟨hm, htl⟩ := h
    simp only [convert_anthropic_to_openai_request]
    by_cases ht : truthy (dictGetD kvs "messages" (.arr [])) = true
    · cases hmm : dictGetD kvs "messages" (.arr []) with
      | arr ms =>
        rw [hmm] at hm ht
        have hcms := convertMessages_isSome g ms hm 0
        cases hcm : convertMessages g 0 ms with
        | none => rw [hcm] at hcms; exact absurd hcms (by simp)
        | some p =>
          simp only [hmm, ht, if_true, hcm, Option.bind_eq_bind, Option.some_bind]
          by_cases htt : truthy (dictGetD kvs "tools" (.arr [])) = true
          · cases hmt : dictGetD kvs "tools" (.arr []) with
            | arr ts =>
              rw [hmt] at htl htt
              have hcts := convertTools_isSome ts htl
              cases hct : convertTools ts with
              | none => rw [hct] at hcts; exact absurd hcts (by simp)
              | some ots => simp [hmt, htt, hct]
            | null => rw [hmt] at htt; exact absurd htt (by simp [truthy])
            | bool b =>
              rw [hmt] at htl htt
              simp only [Bool.not_eq_true'] at htl
              exact absurd htt (by simp [htl])
            | num n =>
              rw [hmt] at htl htt
              simp only [Bool.not_eq_true'] at htl
              exact absurd htt (by simp [htl])
            | str s =>
              rw [hmt] at htl htt
              simp only [Bool.not_eq_true'] at htl
              exact absurd htt (by simp [htl])
            | obj o =>
              rw [hmt] at htl htt
              simp only [Bool.not_eq_true'] at htl
              exact absurd htt (by simp [htl])
          · simp [htt]
      | null => rw [hmm] at ht; exact absurd ht (by simp [truthy])
      | bool b =>
        rw [hmm] at hm ht
        simp only [Bool.not_eq_true'] at hm
        exact absurd ht (by simp [hm])
      | num n =>
        rw [hmm] at hm ht
        simp only [Bool.not_eq_true'] at hm
        exact absurd ht (by simp [hm])
      | str s =>
        rw [hmm] at hm ht
        simp only [Bool.not_eq_true'] at hm
        exact absurd ht (by simp [hm])
      | obj o =>
        rw [hmm] at hm ht
        simp only [Bool.not_eq_true'] at hm
        exact absurd ht (by simp [hm])
    · simp [ht]
  | null => exact absurd h (by simp [reqSafe])
  | bool b => exact absurd h (by simp [reqSafe])
  | num n => exact absurd h (by simp [reqSafe])
  | str s => exact absurd h (by simp [reqSafe])
  | arr xs => exact absurd h (by simp [reqSafe])

/-- C9 counterexample: on a messages list containing the non-object
element 42, the translator raises (`msg.get("role")` is an
`AttributeError`) instead of returning a document. -/
theorem c9_counterexample :
    convert_anthropic_to_openai_request (fun _ => "gen")
      (.obj [("messages", .arr [.num 42])]) = none := rfl

theorem c9_witness :
    reqSafe (.obj [("messages",
        .arr [.obj [("role", .str "user"), ("content", .str "hi")]])]) = true ∧
      ∃ out, convert_anthropic_to_openai_request (fun _ => "gen")
        (.obj [("messages",
          .arr [.obj [("role", .str "user"), ("content", .str "hi")]])]) = some out :=
  ⟨rfl, c9_no_raise (fun _ => "gen") _ rfl⟩

/-! ### C8: determinism -/

/-- The value carries an explicit `id` key.  Non-objects are exempt: the
translators skip them before any generated identifier can reach the
output. -/
def hasId (j : Json) : Bool :=
  match j with
  | .obj kvs => (pyLookup kvs "id").isSome
  | _ => true

/-- Every tool_use block of an assistant block-list message has an id. -/
def msgIdsPresent (msg : Json) : Bool :=
  match msg with
  | .obj kvs =>
    match dictGetD kvs "role" .null, dictGetD kvs "content" .null with
    | .str "assistant", .arr items => (items.filter (isType "tool_use")).all hasId
    | _, _ => true
  | _ => true

/-- Every tool_use block of the request carries an explicit id. -/
def reqIdsPresent (req : Json) : Bool :=
  match req with
  | .obj kvs =>
    match dictGetD kvs "messages" (.arr []) with
    | .arr ms => ms.all msgIdsPresent
    | _ => true
  | _ => true

/-- The response carries an explicit id and so does every tool-call entry
of the first choice (vacuously true on the passthrough and error paths,
which use no generated identifier). -/
def respIdsPresent (resp : Json) : Bool :=
  match resp with
  | .obj kvs =>
    !truthy (dictGetD kvs "choices" .null) ||
    ((pyLookup kvs "id").isSome &&
      (match dictGetD kvs "choices" .null with
       | .arr (.obj ckvs :: _) =>
         (match dictGetD ckvs "message" (.obj []) with
          | .obj mkvs => (toolCallEntries mkvs).all hasId
          | _ => true)
       | _ => true))
  | _ => true

theorem buildToolCalls_indep (g₁ g₂ : Nat → String) (tus : List Json)
    (h : ∀ tu ∈ tus, hasId tu = true) :
    ∀ c, buildToolCalls g₁ c tus = buildToolCalls g₂ c tus := by
  induction tus with
  | nil => intro c; rfl
  | cons tu rest ih =>
    intro c
    have hrec := ih (fun x hx => h x (List.mem_cons_of_mem _ hx))
    cases tu with
    | obj kvs =>
      have hid := h (.obj kvs) (by simp)
      simp only [hasId] at hid
      obtain ⟨v, hv⟩ := Option.isSome_iff_exists.mp hid
      simp only [buildToolCalls, pyGetD, dictGetD, hv, Option.getD_some]
      by_cases hn : truthy ((pyLookup kvs "name").getD (.str "")) = true
      · simp [hn, hrec (c + 1)]
      · simp [hn, hrec c]
    | null => exact hrec c
    | bool b => exact hrec c
    | num n => exact hrec c
    | str s => exact hrec c
    | arr xs => exact hrec c

theorem convertAssistantMsg_indep (g₁ g₂ : Nat → String) (c : Nat) (content : Json)
    (h : ∀ items, content = .arr items →
      (items.filter (isType "tool_use")).all hasId = true) :
    convertAssistantMsg g₁ c content = convertAssistantMsg g₂ c content := by
  cases content <;> try rfl
  rename_i items
  have hbt := buildToolCalls_indep g₁ g₂ (items.filter (isType "tool_use"))
    (fun tu htu => List.all_eq_true.mp (h items rfl) tu htu) c
  simp only [convertAssistantMsg, hbt]

theorem convertMessage_indep (g₁ g₂ : Nat → String) (c : Nat) (msg : Json)
    (h : msgIdsPresent msg = true) :
    convertMessage g₁ c msg = convertMessage g₂ c msg := by
  cases msg with
  | obj kvs =>
    simp only [convertMessage]
    by_cases h1 : dictGetD kvs "role" .null = .str "system"
    · simp [h1]
    · by_cases h2 : dictGetD kvs "role" .null = .str "user"
      · simp [h1, h2]
      · by_cases h3 : dictGetD kvs "role" .null = .str "assistant"
        · simp only [h1, h2, h3, if_false, if_true, eq_self_iff_true]
          apply convertAssistantMsg_indep
          intro items hi
          simp only [msgIdsPresent, h3, hi] at h
          exact h
        · simp [h1, h2, h3]
  | null => rfl
  | bool b => rfl
  | num n => rfl
  | str s => rfl
  | arr xs => rfl

theorem convertMessages_indep (g₁ g₂ : Nat → String) (ms : List Json)
    (h : ms.all msgIdsPresent = true) :
    ∀ c, convertMessages g₁ c ms = convertMessages g₂ c ms := by
  induction ms with
  | nil => intro c; rfl
  | cons m rest ih =>
    intro c
    simp only [List.all_cons, Bool.and_eq_true] at h
    simp only [convertMessages, convertMessage_indep g₁ g₂ c m h.1]
    cases convertMessage g₂ c m with
    | none => rfl
    | some p => simp only [Option.bind_eq_bind, Option.some_bind, ih h.2 p.2]

theorem buildRespToolUses_indep (g₁ g₂ : Nat → String) (tcs : List Json)
    (h : ∀ tc ∈ tcs, hasId tc = true) :
    ∀ c, buildRespToolUses g₁ c tcs = buildRespToolUses g₂ c tcs := by
  induction tcs with
  | nil => intro c; rfl
  | cons tc rest ih =>
    intro c
    have hrec := ih (fun x hx => h x (List.mem_cons_of_mem _ hx))
    cases tc with
    | obj kvs =>
      have hid := h (.obj kvs) (by simp)
      simp only [hasId] at hid
      obtain ⟨v, hv⟩ := Option.isSome_iff_exists.mp hid
      simp only [buildRespToolUses, dictGetD, hv, Option.getD_some]
      cases hf : (pyLookup kvs "function").getD (.obj []) with
      | obj fkvs =>
        by_cases hn : truthy ((pyLookup fkvs "name").getD (.str "")) = true
        · simp [hn, hrec (c + 1)]
        · simp [hn, hrec (c + 1)]
      | null => simp [hrec (c + 1)]
      | bool b => simp [hrec (c + 1)]
      | num n => simp [hrec (c + 1)]
      | str s => simp [hrec (c + 1)]
      | arr xs => simp [hrec (c + 1)]
    | null => exact hrec c
    | bool b => exact hrec c
    | num n => exact hrec c
    | str s => exact hrec c
    | arr xs => exact hrec c

/-- C8 (amended): both translators are deterministic relative to the
generated-identifier source: on every input whose tool_use blocks /
tool-call entries carry explicit ids (and, for the response translator,
whose response carries an id), the output does not depend on the
identifier source at all.  When ids are omitted, two invocations drawing
different generated identifiers can return different documents (see the
counterexample), contrary to the original claim. -/
theorem c8_deterministic :
    (∀ (g₁ g₂ : Nat → String) (req : Json), reqIdsPresent req = true →
      convert_anthropic_to_openai_request g₁ req =
        convert_anthropic_to_openai_request g₂ req) ∧
    (∀ (g₁ g₂ : Nat → String) (resp : Json), respIdsPresent resp = true →
      convert_openai_to_anthropic_response g₁ resp =
        convert_openai_to_anthropic_response g₂ resp) := by
  constructor
  · intro g₁ g₂ req h
    cases req with
    | obj kvs =>
      simp only [convert_anthropic_to_openai_request]
      by_cases ht : truthy (dictGetD kvs "messages" (.arr [])) = true
      · cases hmm : dictGetD kvs "messages" (.arr []) with
        | arr ms =>
          have hms : ms.all msgIdsPresent = true := by
            simp only [reqIdsPresent, hmm] at h
            exact h
          simp only [hmm, ht, if_true, convertMessages_indep g₁ g₂ ms hms 0]
        | null => simp [ht, hmm]
        | bool b => simp [ht, hmm]
        | num n => simp [ht, hmm]
        | str s => simp [ht, hmm]
        | obj o => simp [ht, hmm]
      · simp [ht]
    | null => rfl
    | bool b => rfl
    | num n => rfl
    | str s => rfl
    | arr xs => rfl
  · intro g₁ g₂ resp h
    cases resp with
    | obj kvs =>
      by_cases ht : truthy (dictGetD kvs "choices" .null) = true
      · simp only [respIdsPresent, ht, Bool.not_true, Bool.false_or,
          Bool.and_eq_true] at h
        obtain ⟨hid, hrest⟩ := h
        obtain ⟨v, hv⟩ := Option.isSome_iff_exists.mp hid
        cases hch : dictGetD kvs "choices" .null with
        | arr cs =>
          cases cs with
          | nil => simp [convert_openai_to_anthropic_response, ht, hch]
          | cons choice crest =>
            cases choice with
            | obj ckvs =>
              cases hmsg : dictGetD ckvs "message" (.obj []) with
              | obj mkvs =>
                have hall : (toolCallEntries mkvs).all hasId = true := by
                  rw [hch] at hrest
                  simp only [hmsg] at hrest
                  exact hrest
                have hbt := buildRespToolUses_indep g₁ g₂ (toolCallEntries mkvs)
                  (fun tc htc => List.all_eq_true.mp hall tc htc) 0
                have hvid : ∀ d, dictGetD kvs "id" d = v := fun d => by
                  simp [dictGetD, hv]
                simp only [convert_openai_to_anthropic_response, ht, if_true,
                  hch, hmsg, hbt, hvid]
              | null => simp [convert_openai_to_anthropic_response, ht, hch, hmsg]
              | bool b => simp [convert_openai_to_anthropic_response, ht, hch, hmsg]
              | num n => simp [convert_openai_to_anthropic_response, ht, hch, hmsg]
              | str s => simp [convert_openai_to_anthropic_response, ht, hch, hmsg]
              | arr xs => simp [convert_openai_to_anthropic_response, ht, hch, hmsg]
            | null => simp [convert_openai_to_anthropic_response, ht, hch]
            | bool b => simp [convert_openai_to_anthropic_response, ht, hch]
            | num n => simp [convert_openai_to_anthropic_response, ht, hch]
            | str s => simp [convert_openai_to_anthropic_response, ht, hch]
            | arr xs => simp [convert_openai_to_anthropic_response, ht, hch]
        | null => simp [convert_openai_to_anthropic_response, ht, hch]
        | bool b => simp [convert_openai_to_anthropic_response, ht, hch]
        | num n => simp [convert_openai_to_anthropic_response, ht, hch]
        | str s => simp [convert_openai_to_anthropic_response, ht, hch]
        | obj o => simp [convert_openai_to_anthropic_response, ht, hch]
      · simp [convert_openai_to_anthropic_response, ht]
    | null => rfl
    | bool b => rfl
    | num n => rfl
    | str s => rfl
    | arr xs => rfl

/-- A request whose tool_use block carries no id. -/
def c8Request : Json :=
  .obj [("messages", .arr [.obj [("role", .str "assistant"), ("content", .arr
    [.obj [("type", .str "tool_use"), ("name", .str "f"), ("input", .obj [])]])]])]

/-- C8 counterexample: on a tool_use block without an id, two invocations
drawing different generated identifiers return different output
documents, so the translator is not deterministic in the claimed sense. -/
theorem c8_counterexample :
    convert_anthropic_to_openai_request (fun _ => "call_a") c8Request ≠
      convert_anthropic_to_openai_request (fun _ => "call_b") c8Request := by
  decide

/-- A request and a response where every id is explicit. -/
def c8WitnessRequest : Json :=
  .obj [("messages", .arr [.obj [("role", .str "assistant"), ("content", .arr
    [.obj [("type", .str "tool_use"), ("id", .str "call_9"), ("name", .str "f"),
           ("input", .obj [])]])]])]

theorem c8_witness :
    reqIdsPresent c8WitnessRequest = true ∧
      respIdsPresent (respWithArgs (.obj [])) = true ∧
      convert_anthropic_to_openai_request (fun _ => "call_a") c8WitnessRequest =
        convert_anthropic_to_openai_request (fun _ => "call_b") c8WitnessRequest ∧
      convert_openai_to_anthropic_response (fun _ => "msg_a") (respWithArgs (.obj [])) =
        convert_openai_to_anthropic_response (fun _ => "msg_b") (respWithArgs (.obj [])) :=
  ⟨rfl, rfl,
   c8_deterministic.1 (fun _ => "call_a") (fun _ => "call_b") c8WitnessRequest rfl,
   c8_deterministic.2 (fun _ => "msg_a") (fun _ => "msg_b") (respWithArgs (.obj [])) rfl⟩
